import Mathlib

/-!
Verification of the parameter-validation / configuration-serialization core of
the SimEx plasma XRTS calculator
(`src/python/src/SimEx/Parameters/PlasmaXRTSCalculatorParameters.py`).

The Python module is shallowly embedded below: every `checkAndSet*` validator
becomes a Lean function of the same name, Python floats become `ℚ` (the few
irrational derived quantities, namely the plasma frequency and the derived
energy window, live in `ℝ`), absent arguments become `Option.none`, and every
raising code path becomes an `Except PyError` error value.  The constructor
`__init__` becomes `constructParameters`, the deck writer `_initialize` becomes
`writeInputDeck` (modelled as the trace of lines written before the first
uncaught exception), and the property setters become `*_setter` functions.
-/

/-- Error values. Each constructor corresponds to a concrete raise site of the
Python module (or of a Python builtin), labelled with the error category the
specification assigns to that site:
* `missingRequiredValue` — `RuntimeError("... not specified")` raised when a
  required argument is `None` (e.g. lines 465-466, 483-484, 507-508);
* `typeMismatch` — `TypeError` raised by `checkAndSetInstance` when a present
  value has the wrong primitive type;
* `outOfRangeValue` — `ValueError` raised when a well-typed value violates its
  range constraint (e.g. lines 469-470, 510-511);
* `invalidChoice` — `ValueError` raised when a value is outside a categorical
  set (e.g. lines 490-491, 655-656, 684-685);
* `underspecifiedSystem` — `RuntimeError` at lines 521-522 (fewer than two of
  the density triple given);
* `inconsistentPhysicalParameters` — `ValueError` at lines 531-532 (triple
  relation violated beyond tolerance);
* `zeroDivisionError` — Python `ZeroDivisionError` from float division by zero;
* `mathDomainError` — `ValueError` raised by `math.sqrt` on a negative argument
  (line 630);
* `keyError` — Python `KeyError` from a dict lookup;
* `attributeError` — Python `AttributeError` from reading an attribute that was
  never assigned;
* `nameError` — Python `NameError` from calling an undefined module-level name.
-/
inductive PyError where
  | missingRequiredValue
  | typeMismatch
  | outOfRangeValue
  | invalidChoice
  | underspecifiedSystem
  | inconsistentPhysicalParameters
  | zeroDivisionError
  | mathDomainError
  | keyError (key : String)
  | attributeError (name : String)
  | nameError (name : String)
  deriving DecidableEq, Repr

/-- A Python value that is either a string or a float, the type of the
`model_Sii`, `model_IPL` and `Sbf_norm` inputs ("string or double" per the
docstrings). -/
inductive StrOrFloat where
  | s (v : String)
  | f (v : ℚ)
  deriving DecidableEq, Repr

/-- `isinstance(model, float)` for a string-or-float value. -/
def StrOrFloat.isFloat : StrOrFloat → Bool
  | .s _ => false
  | .f _ => true

/-- Python `model in valid_models` where `valid_models` is a list of strings:
a float value never compares equal to a string, so membership holds only for
the string case. -/
def StrOrFloat.inStringList : StrOrFloat → List String → Bool
  | .s v, l => l.contains v
  | .f _, _ => false

/-- A raw Python value supplied for `energy_range`: either a `dict` with string
keys and float values, or some value of a non-dict type. -/
inductive PyObj where
  | dict (entries : List (String × ℚ))
  | nonDict
  deriving DecidableEq, Repr

/-- `scipy.constants.Avogadro` = 6.02214076e23 (exact value used by the
module through `from scipy.constants import Avogadro`). -/
def avogadro : ℚ := 602214076 * 10 ^ 15

/-- `physical_constants['Bohr radius'][0]` = 5.29177210903e-11 m (line 626). -/
noncomputable def bohr_radius_m : ℝ := 529177210903 / 10 ^ 22

/-- `physical_constants['Rydberg constant times hc in eV'][0]`
= 13.605693122994 eV (line 627). -/
noncomputable def rydberg_energy_eV : ℝ := 13605693122994 / 10 ^ 12

/-- Python float division: raises `ZeroDivisionError` when the denominator is
zero, otherwise returns the exact quotient. -/
def pyDiv (a b : ℚ) : Except PyError ℚ :=
  if b = 0 then .error .zeroDivisionError else .ok (a / b)

/-- Modelled from the spec: `checkAndSetInstance` from
`SimEx/Utilities/EntityChecks.py` is imported by the module but its source is
not among the provided files.  Per the spec (§4.1), an absent (`None`) value is
replaced by the declared default and a present value of the expected type is
returned unchanged; a present value of the wrong type fails with
`TypeMismatch` (the wrong-type channel is represented at the one call site
where it matters for the claims, `checkAndSetEnergyRange`, via
`PyObj.nonDict`). -/
def checkAndSetInstance {α : Type} (value default : Option α) : Option α :=
  match value with
  | some v => some v
  | none => default

/-- Modelled from the spec: `ALL_ELEMENTS` from `SimEx/Utilities/Utilities.py`
(not among the provided files) is the process-wide periodic-table symbol set
used to validate element symbols (spec §3 and §9: "Global element-symbol
table"). -/
def ALL_ELEMENTS : List String :=
  ["H", "He", "Li", "Be", "B", "C", "N", "O", "F", "Ne",
   "Na", "Mg", "Al", "Si", "P", "S", "Cl", "Ar", "K", "Ca",
   "Sc", "Ti", "V", "Cr", "Mn", "Fe", "Co", "Ni", "Cu", "Zn",
   "Ga", "Ge", "As", "Se", "Br", "Kr", "Rb", "Sr", "Y", "Zr",
   "Nb", "Mo", "Tc", "Ru", "Rh", "Pd", "Ag", "Cd", "In", "Sn",
   "Sb", "Te", "I", "Xe", "Cs", "Ba", "La", "Ce", "Pr", "Nd",
   "Pm", "Sm", "Eu", "Gd", "Tb", "Dy", "Ho", "Er", "Tm", "Yb",
   "Lu", "Hf", "Ta", "W", "Re", "Os", "Ir", "Pt", "Au", "Hg",
   "Tl", "Pb", "Bi", "Po", "At", "Rn", "Fr", "Ra", "Ac", "Th",
   "Pa", "U", "Np", "Pu", "Am", "Cm", "Bk", "Cf", "Es", "Fm",
   "Md", "No", "Lr", "Rf", "Db", "Sg", "Bh", "Hs", "Mt", "Ds",
   "Rg", "Cn", "Nh", "Fl", "Mc", "Lv", "Ts", "Og"]

/-- `checkAndSetScatteringAngle` (lines 456-473): `None` raises
`RuntimeError("Scattering angle not specified.")` (the `MissingRequiredValue`
category); a value with `angle <= 0.0 or angle > 180.0` raises the
out-of-range `ValueError` of line 470; otherwise the angle is returned
unchanged. -/
def checkAndSetScatteringAngle (angle : Option ℚ) : Except PyError ℚ :=
  match angle with
  | none => .error .missingRequiredValue
  | some a => if a ≤ 0 ∨ 180 < a then .error .outOfRangeValue else .ok a

/-- `checkAndSetElements` (lines 475-498): `None` raises `RuntimeError`; each
entry `[symbol, stoch, chrg]` must have a periodic-table symbol, a positive
stoichiometry and a charge `>= -1`, errors being raised at the first bad
entry.  (`checkAndSetPositiveInteger` / `checkAndSetInteger` come from
`EntityChecks.py`, not among the provided files; modelled from the spec:
"count is a positive integer; charge is an integer ≥ −1".) -/
def checkElementEntry (e : String × ℤ × ℤ) : Except PyError Unit :=
  if ¬ (e.1 ∈ ALL_ELEMENTS) then .error .invalidChoice
  else if e.2.1 ≤ 0 then .error .outOfRangeValue
  else if e.2.2 < -1 then .error .outOfRangeValue
  else .ok ()

/-- The `for element in elements` loop of `checkAndSetElements`
(lines 488-497). -/
def checkElementList : List (String × ℤ × ℤ) → Except PyError Unit
  | [] => .ok ()
  | e :: rest => do
      let _ ← checkElementEntry e
      checkElementList rest

/-- `checkAndSetElements` (lines 475-498). -/
def checkAndSetElements (elements : Option (List (String × ℤ × ℤ))) :
    Except PyError (List (String × ℤ × ℤ)) :=
  match elements with
  | none => .error .missingRequiredValue
  | some l => do
      let _ ← checkElementList l
      .ok l

/-- `checkAndSetElectronTemperature` (lines 500-513). -/
def checkAndSetElectronTemperature (electron_temperature : Option ℚ) :
    Except PyError ℚ :=
  match electron_temperature with
  | none => .error .missingRequiredValue
  | some t => if t ≤ 0 then .error .outOfRangeValue else .ok t

/-- `sum(x is None for x in [electron_density, ion_charge, mass_density])`
(line 519). -/
def number_of_nones (electron_density ion_charge mass_density : Option ℚ) : ℕ :=
  (if electron_density.isNone then 1 else 0) +
  (if ion_charge.isNone then 1 else 0) +
  (if mass_density.isNone then 1 else 0)

/-- `checkAndSetDensitiesAndCharge` (lines 515-534), the Consistency Solver.
More than one absent value raises the `UnderspecifiedSystem` `RuntimeError`
(line 522).  Otherwise the single missing quantity (if any) is derived, in
source order (lines 524-529); `Option.getD 0` extracts values that the
none-count guard guarantees to be present (the default `0` is unreachable
there).  Finally the relative-deviation check of line 531 either raises the
`InconsistentPhysicalParameters` `ValueError` or returns the triple.  Python
float divisions by zero raise `ZeroDivisionError` (`pyDiv`). -/
def checkAndSetDensitiesAndCharge
    (electron_density ion_charge mass_density : Option ℚ) :
    Except PyError (ℚ × ℚ × ℚ) :=
  if 1 < number_of_nones electron_density ion_charge mass_density then
    .error .underspecifiedSystem
  else do
    let ne : ℚ :=
      match electron_density with
      | some x => x
      | none => mass_density.getD 0 * ion_charge.getD 0 * avogadro * 1000000
    let zf ←
      match ion_charge with
      | some x => pure x
      | none => pyDiv ne (mass_density.getD 0 * avogadro * 1000000)
    let rho ←
      match mass_density with
      | some x => pure x
      | none => pyDiv ne (zf * avogadro * 1000000)
    let ratio ← pyDiv ne (rho * zf * avogadro * 1000000)
    if 1 / 10000 < |ratio - 1| then .error .inconsistentPhysicalParameters
    else .ok (ne, zf, rho)

/-- `checkAndSetIonTemperature` (lines 536-551): defaults to the (already
validated) electron temperature; raises if both are absent, or if the
resulting value is non-positive. -/
def checkAndSetIonTemperature (ion_temperature electron_temperature : Option ℚ) :
    Except PyError ℚ :=
  match ion_temperature, electron_temperature with
  | none, none => .error .missingRequiredValue
  | none, some te => if te ≤ 0 then .error .outOfRangeValue else .ok te
  | some ti, _ => if ti ≤ 0 then .error .outOfRangeValue else .ok ti

/-- `checkAndSetDebyeTemperature` (lines 553-565): default 0.0, must be
non-negative. -/
def checkAndSetDebyeTemperature (debye_temperature : Option ℚ) :
    Except PyError ℚ :=
  let v := debye_temperature.getD 0
  if v < 0 then .error .outOfRangeValue else .ok v

/-- `checkAndSetBandGap` (lines 567-579): default 0.0, must be
non-negative. -/
def checkAndSetBandGap (band_gap : Option ℚ) : Except PyError ℚ :=
  let v := band_gap.getD 0
  if v < 0 then .error .outOfRangeValue else .ok v

/-- `plasma_frequency_eV` as computed at line 630:
`4. * math.sqrt( electron_density * (bohr_radius_m * 1e2)**3 * math.pi) * rydberg_energy_eV`. -/
noncomputable def plasma_frequency_eV (electron_density : ℚ) : ℝ :=
  4 * Real.sqrt ((electron_density : ℝ) * (bohr_radius_m * 100) ^ 3 * Real.pi) *
    rydberg_energy_eV

/-- `energy_range_default` as built at line 633:
`{'min' : -10.*plasma_frequency_eV, 'max' : 10.*plasma_frequency_eV, 'step':0.1*plasma_frequency_eV}`. -/
noncomputable def energy_range_default (electron_density : ℚ) :
    List (String × ℝ) :=
  [("min", -10 * plasma_frequency_eV electron_density),
   ("max", 10 * plasma_frequency_eV electron_density),
   ("step", 0.1 * plasma_frequency_eV electron_density)]

/-- `checkAndSetEnergyRange` (lines 617-637).  The plasma frequency is
computed unconditionally, so a negative electron density makes `math.sqrt`
raise its domain `ValueError` even when a range is supplied.  `checkAndSetInstance(dict, energy_range, energy_range_default)` then returns the default
for an absent value, returns a supplied `dict` unchanged (its keys are never
inspected), and raises `TypeError` for a value of any other type
(`checkAndSetInstance` is modelled from the spec, see its doc string). -/
noncomputable def checkAndSetEnergyRange (energy_range : Option PyObj)
    (electron_density : ℚ) : Except PyError (List (String × ℝ)) :=
  if electron_density < 0 then .error .mathDomainError
  else
    match energy_range with
    | none => .ok (energy_range_default electron_density)
    | some (.dict d) => .ok (d.map fun kv => (kv.1, (kv.2 : ℝ)))
    | some .nonDict => .error .typeMismatch

/-- `checkAndSetModelSii` (lines 639-658).  The raise condition of line 655 is
transcribed literally:
`if not (model in valid_models or not isinstance( model, float )): raise ValueError(...)`,
i.e. the error fires exactly when the value is a float (a float is never `in`
a list of strings), while any non-float value — including arbitrary strings —
passes. -/
def checkAndSetModelSii (model : Option StrOrFloat) : Except PyError StrOrFloat :=
  let m := model.getD (.s "SOCP")
  if ¬ (m.inStringList ["DH", "OCP", "SOCP", "SOCPN"] || !m.isFloat) then
    .error .invalidChoice
  else .ok m

/-- `checkAndSetModelSee` (lines 661-688): default `'RPA'`, membership in the
seven valid See models required. -/
def checkAndSetModelSee (model : Option String) : Except PyError String :=
  let m := model.getD "RPA"
  if ["RPA", "Lindhard", "static LFC", "dynamic LFC",
      "BMA", "BMA+sLFC", "BMA+dLFC"].contains m then .ok m
  else .error .invalidChoice

/-- `checkAndSetModelSbf` (lines 690-712): default `'IA'`, membership in
`['IA', 'IBA', 'FFA']` required. -/
def checkAndSetModelSbf (model : Option String) : Except PyError String :=
  let m := model.getD "IA"
  if ["IA", "IBA", "FFA"].contains m then .ok m
  else .error .invalidChoice

/-- `checkAndSetModelIPL` (lines 714-736): same literally-transcribed
condition shape as `checkAndSetModelSii` with `valid_models = ['SP', 'EK']`
and default `'SP'`. -/
def checkAndSetModelIPL (model : Option StrOrFloat) : Except PyError StrOrFloat :=
  let m := model.getD (.s "SP")
  if ¬ (m.inStringList ["SP", "EK"] || !m.isFloat) then
    .error .invalidChoice
  else .ok m

/-- `checkAndSetModelMix` (lines 581-593): lowercases a string input, requires
membership in `['adv', None]`, and maps `'adv'` to `1` and `None` to `0`. -/
def checkAndSetModelMix (model_Mix : Option String) : Except PyError ℤ :=
  match model_Mix with
  | none => .ok 0
  | some v => if v.toLower = "adv" then .ok 1 else .error .invalidChoice

/-- `checkAndSetLFC` (lines 595-604): default 0.0, no further constraint. -/
def checkAndSetLFC (lfc : Option ℚ) : ℚ := lfc.getD 0

/-- `checkAndSetSbfNorm` (lines 606-615): `'FK'`, `'NO'`, `None` or any float
are accepted unchanged, anything else raises `ValueError`. -/
def checkAndSetSbfNorm (Sbf_norm : Option StrOrFloat) :
    Except PyError (Option StrOrFloat) :=
  match Sbf_norm with
  | none => .ok none
  | some (.f x) => .ok (some (.f x))
  | some (.s v) =>
      if ["FK", "NO"].contains v then .ok (some (.s v))
      else .error .invalidChoice

/-- The validated/derived aggregate stored by `__init__` (lines 152-170).  The
Python instance attribute `self._input_data` is read by `_initialize`
(line 185) but is never assigned by this class; it is modelled as an `Option`
field that construction leaves at `none`.  (`self.__is_initialized`, a plain
bookkeeping flag, carries no information used by any claim and is omitted.) -/
structure PlasmaXRTSCalculatorParameters where
  elements : List (String × ℤ × ℤ)
  scattering_angle : ℚ
  electron_temperature : ℚ
  electron_density : ℚ
  ion_charge : ℚ
  mass_density : ℚ
  ion_temperature : ℚ
  debye_temperature : ℚ
  band_gap : ℚ
  energy_range : List (String × ℝ)
  model_Sii : StrOrFloat
  model_See : String
  model_Sbf : String
  model_IPL : StrOrFloat
  model_Mix : ℤ
  lfc : ℚ
  Sbf_norm : Option StrOrFloat
  input_data : Option (List (String × ℚ))

/-- The raw keyword arguments of `__init__` (lines 48-66), all defaulting to
`None`. -/
structure Config where
  elements : Option (List (String × ℤ × ℤ)) := none
  scattering_angle : Option ℚ := none
  electron_temperature : Option ℚ := none
  electron_density : Option ℚ := none
  ion_temperature : Option ℚ := none
  ion_charge : Option ℚ := none
  mass_density : Option ℚ := none
  debye_temperature : Option ℚ := none
  band_gap : Option ℚ := none
  energy_range : Option PyObj := none
  model_Sii : Option StrOrFloat := none
  model_See : Option String := none
  model_Sbf : Option String := none
  model_IPL : Option StrOrFloat := none
  model_Mix : Option String := none
  lfc : Option ℚ := none
  Sbf_norm : Option StrOrFloat := none

/-- `__init__` (lines 152-170): each raw input passes through its validator in
source order; the first raised error aborts construction. -/
noncomputable def constructParameters (cfg : Config) :
    Except PyError PlasmaXRTSCalculatorParameters := do
  let elements ← checkAndSetElements cfg.elements
  let scattering_angle ← checkAndSetScatteringAngle cfg.scattering_angle
  let electron_temperature ← checkAndSetElectronTemperature cfg.electron_temperature
  let (electron_density, ion_charge, mass_density) ←
    checkAndSetDensitiesAndCharge cfg.electron_density cfg.ion_charge cfg.mass_density
  let ion_temperature ←
    checkAndSetIonTemperature cfg.ion_temperature (some electron_temperature)
  let debye_temperature ← checkAndSetDebyeTemperature cfg.debye_temperature
  let band_gap ← checkAndSetBandGap cfg.band_gap
  let energy_range ← checkAndSetEnergyRange cfg.energy_range electron_density
  let model_Sii ← checkAndSetModelSii cfg.model_Sii
  let model_See ← checkAndSetModelSee cfg.model_See
  let model_Sbf ← checkAndSetModelSbf cfg.model_Sbf
  let model_IPL ← checkAndSetModelIPL cfg.model_IPL
  let model_Mix ← checkAndSetModelMix cfg.model_Mix
  let lfc := checkAndSetLFC cfg.lfc
  let Sbf_norm ← checkAndSetSbfNorm cfg.Sbf_norm
  pure { elements := elements, scattering_angle := scattering_angle,
         electron_temperature := electron_temperature,
         electron_density := electron_density, ion_charge := ion_charge,
         mass_density := mass_density, ion_temperature := ion_temperature,
         debye_temperature := debye_temperature, band_gap := band_gap,
         energy_range := energy_range, model_Sii := model_Sii,
         model_See := model_See, model_Sbf := model_Sbf, model_IPL := model_IPL,
         model_Mix := model_Mix, lfc := lfc, Sbf_norm := Sbf_norm,
         input_data := none }

/-- One line of the input deck written by `_initialize`.  Lines whose text is a
constant string are `text`; lines produced through a `%` format with a value
hole carry that value.  `target` is the species line of line 251
(`'TARGET_%d %s %d %d\n'`). -/
inductive DeckLine where
  | text (s : String)
  | photon_energy (v : ℚ)
  | scattering_angle (v : ℚ)
  | electron_temp (v : ℚ)
  | electron_density (v : ℚ)
  | z_free (v : ℚ)
  | target (idx : ℕ) (symbol : String) (stoch : ℤ) (chrg : ℤ)
  deriving DecidableEq, Repr

/-- The four constant lines written by `_initialize` before any format
argument is evaluated (lines 181-184). -/
def deckHeaderLines : List DeckLine :=
  [.text "--XRTS---input_file-----------------------------------",
   .text "--",
   .text "--fit_parameters------------------------------flag----",
   .text "DO_FIT                 0"]

/-- Shallow embedding of `_initialize` (lines 172-268) as an execution trace:
the list of deck lines written before the first uncaught exception, paired
with that exception (if any).  The scratch-directory creation and the file
open (lines 176-180) are file-system effects assumed to succeed.

Lines 181-184 write four constant strings.  Line 185 then evaluates
`self._input_data['photon_energy']`: `_input_data` is never assigned by the
class, so on a constructed instance this raises `AttributeError` with four
lines already in the file.  Were `_input_data` present (it is a
single-underscore attribute an external caller could set), lines 185-193
would be written and line 194 would evaluate `self.__use_rpa` — a name-mangled
private attribute (`_PlasmaXRTSCalculatorParameters__use_rpa`) that no code
assigns — raising `AttributeError` there instead.  In every case execution
never reaches the target-species loop of lines 250-251 (which would itself
fail: it iterates `self.elements.keys()` although `elements` is a list). -/
def writeInputDeck (p : PlasmaXRTSCalculatorParameters) :
    List DeckLine × Option PyError :=
  match p.input_data with
  | none => (deckHeaderLines, some (.attributeError "_input_data"))
  | some d =>
    match List.lookup "photon_energy" d with
    | none => (deckHeaderLines, some (.keyError "photon_energy"))
    | some pe =>
        (deckHeaderLines ++
          [.photon_energy pe,
           .scattering_angle p.scattering_angle,
           .electron_temp p.electron_temperature,
           .electron_density p.electron_density,
           .text "AMPLITUDE         1.0         0",
           .text "BASELINE             0.0         0",
           .z_free p.ion_charge,
           .text "OUT(1=XSEC,2=PWR)    1",
           .text "--model_for_total_spec---------use-flag--------------"],
         some (.attributeError "_PlasmaXRTSCalculatorParameters__use_rpa"))

/-- Whether a deck line is a `TARGET_%d %s %d %d` species line. -/
def isTargetLine : DeckLine → Bool
  | .target _ _ _ _ => true
  | _ => false

/-- Number of species lines in a deck trace. -/
def countTargetLines (lines : List DeckLine) : ℕ :=
  (lines.filter isTargetLine).length

/-- The assignment `p.electron_density = value`.  The repository is Python 2
(`#!/usr/bin/env python2.7` in `Sources/python/SimEx/Analysis/XMDYNPhotonMatterAnalysis.py`, `import exceptions` in the unit tests) and
`PlasmaXRTSCalculatorParameters` is declared without a base class (line 43),
hence an old-style class.  Classic `instance_setattr` writes straight into the
instance dict without invoking property descriptors, so the setter body of
lines 302-305 (which would call the undefined name
`checkAndSetElectronDensity` if it ever ran) is dead code: the write always
succeeds, stores the value as given with no validation, shadows the property
for subsequent reads, and touches no other field. -/
def electron_density_setter (p : PlasmaXRTSCalculatorParameters) (value : ℚ) :
    PlasmaXRTSCalculatorParameters :=
  { p with electron_density := value }

/-- The assignment `p.ion_charge = value`: as with `electron_density_setter`,
the property setter of lines 320-323 never executes on this old-style
Python 2 class; the write stores the value unvalidated in the instance dict
and touches no other field. -/
def ion_charge_setter (p : PlasmaXRTSCalculatorParameters) (value : ℚ) :
    PlasmaXRTSCalculatorParameters :=
  { p with ion_charge := value }

/-- The assignment `p.mass_density = value`: as with
`electron_density_setter`, the property setter of lines 329-332 never executes
on this old-style Python 2 class; the write stores the value unvalidated in
the instance dict and touches no other field. -/
def mass_density_setter (p : PlasmaXRTSCalculatorParameters) (value : ℚ) :
    PlasmaXRTSCalculatorParameters :=
  { p with mass_density := value }

/-- `true` iff an `Except` computation succeeded. -/
def isOkE {α : Type} : Except PyError α → Bool
  | .ok _ => true
  | .error _ => false

/-- Stored electron density of a construction result (junk `0` on failure). -/
def okElectronDensity : Except PyError PlasmaXRTSCalculatorParameters → ℚ
  | .ok p => p.electron_density
  | .error _ => 0

/-- Stored ion charge of a construction result (junk `0` on failure). -/
def okIonCharge : Except PyError PlasmaXRTSCalculatorParameters → ℚ
  | .ok p => p.ion_charge
  | .error _ => 0

/-- Stored mass density of a construction result (junk `0` on failure). -/
def okMassDensity : Except PyError PlasmaXRTSCalculatorParameters → ℚ
  | .ok p => p.mass_density
  | .error _ => 0

/-- Stored elements of a construction result (junk `[]` on failure). -/
def okElements : Except PyError PlasmaXRTSCalculatorParameters →
    List (String × ℤ × ℤ)
  | .ok p => p.elements
  | .error _ => []

/-- Deck-writing trace of a construction result (junk on failure). -/
def okDeckTrace : Except PyError PlasmaXRTSCalculatorParameters →
    List DeckLine × Option PyError
  | .ok p => writeInputDeck p
  | .error _ => ([], none)

/-- The triple relation `ne = rho * Zf * N_A * 1e6` (spec §3), stated for a
solver result `(ne, zf, rho)`. -/
def tripleRelation (t : ℚ × ℚ × ℚ) : Prop :=
  t.1 = t.2.2 * t.2.1 * avogadro * 1000000

/-- The solver's own consistency re-check (line 531) in passing form for a
solver result `(ne, zf, rho)`: relative deviation within 1e-4. -/
def tripleWithinTolerance (t : ℚ × ℚ × ℚ) : Prop :=
  |t.1 / (t.2.2 * t.2.1 * avogadro * 1000000) - 1| ≤ 1 / 10000

/-- A fully valid constructor input: one carbon species, 90° scattering,
10 eV electron temperature, and a consistent positive density triple
(`ne = rho * Zf * N_A * 1e6` holds exactly for `rho = 3`, `Zf = 2`). -/
def cfgValidExample : Config :=
  { elements := some [("C", 1, 4)], scattering_angle := some 90,
    electron_temperature := some 10,
    electron_density := some (6 * avogadro * 1000000),
    ion_charge := some 2, mass_density := some 3 }

/-- A constructor input supplying a negative ion charge and negative mass
density whose product is positive: the derived electron density
`rho * Zf * N_A * 1e6` is positive, the consistency check passes exactly, and
no validator ever examines the signs of the stored charge and mass density. -/
def cfgC9neg : Config :=
  { elements := some [("C", 1, 4)], scattering_angle := some 90,
    electron_temperature := some 10,
    ion_charge := some (-2), mass_density := some (-1) }

theorem bind_ok_eval {α β : Type} (a : α) (f : α → Except PyError β) :
    (Except.ok a >>= f) = f a := rfl

theorem bind_error_eval {α β : Type} (e : PyError) (f : α → Except PyError β) :
    ((Except.error e : Except PyError α) >>= f) = .error e := rfl

theorem bindOkInv {α β : Type} {x : Except PyError α} {f : α → Except PyError β}
    {b : β} (h : (x >>= f) = .ok b) : ∃ a, x = .ok a ∧ f a = .ok b := by
  cases x with
  | error e => exact absurd h (by simp [bind_error_eval])
  | ok a => exact ⟨a, rfl, h⟩

theorem avogadro_pos : (0 : ℚ) < avogadro := by norm_num [avogadro]

theorem avogadro_ne : (avogadro : ℚ) ≠ 0 := ne_of_gt avogadro_pos

theorem solver_eval_ne_missing (zf rho : ℚ) (hzf : zf ≠ 0) (hrho : rho ≠ 0) :
    checkAndSetDensitiesAndCharge none (some zf) (some rho) =
      .ok (rho * zf * avogadro * 1000000, zf, rho) := by
  unfold checkAndSetDensitiesAndCharge
  have hx : rho * zf * avogadro * 1000000 ≠ 0 := by
    simp [avogadro, mul_eq_zero, hzf, hrho]
  simp [number_of_nones, pyDiv, hx, bind_ok_eval, div_self hx, hzf, hrho, avogadro_ne]

theorem solver_eval_zf_missing (ne rho : ℚ) (hne : ne ≠ 0) (hrho : rho ≠ 0) :
    checkAndSetDensitiesAndCharge (some ne) none (some rho) =
      .ok (ne, ne / (rho * avogadro * 1000000), rho) := by
  unfold checkAndSetDensitiesAndCharge
  have hx : rho * avogadro * 1000000 ≠ 0 := by
    simp [avogadro, mul_eq_zero, hrho]
  have key : rho * (ne / (rho * avogadro * 1000000)) * avogadro * 1000000 = ne := by
    field_simp
    ring
  simp [number_of_nones, pyDiv, hx, bind_ok_eval, key, hne, div_self hne, hrho,
    avogadro_ne]

theorem solver_eval_rho_missing (ne zf : ℚ) (hne : ne ≠ 0) (hzf : zf ≠ 0) :
    checkAndSetDensitiesAndCharge (some ne) (some zf) none =
      .ok (ne, zf, ne / (zf * avogadro * 1000000)) := by
  unfold checkAndSetDensitiesAndCharge
  have hx : zf * avogadro * 1000000 ≠ 0 := by
    simp [avogadro, mul_eq_zero, hzf]
  have hy : ne / (zf * avogadro * 1000000) ≠ 0 := div_ne_zero hne hx
  have key : ne / (zf * avogadro * 1000000) * zf * avogadro * 1000000 = ne := by
    field_simp
    ring
  simp [number_of_nones, pyDiv, hx, hy, bind_ok_eval, key, hne, div_self hne, hzf,
    avogadro_ne]

theorem solver_eval_all_present (ne zf rho : ℚ) (hzf : zf ≠ 0) (hrho : rho ≠ 0) :
    checkAndSetDensitiesAndCharge (some ne) (some zf) (some rho) =
      if 1 / 10000 < |ne / (rho * zf * avogadro * 1000000) - 1| then
        .error .inconsistentPhysicalParameters
      else .ok (ne, zf, rho) := by
  unfold checkAndSetDensitiesAndCharge
  simp [number_of_nones, pyDiv, bind_ok_eval, hzf, hrho, avogadro_ne]

theorem solver_eval_underspecified (ne0 zf0 rho0 : Option ℚ)
    (h : 1 < number_of_nones ne0 zf0 rho0) :
    checkAndSetDensitiesAndCharge ne0 zf0 rho0 = .error .underspecifiedSystem := by
  unfold checkAndSetDensitiesAndCharge
  simp [h]

theorem constructParameters_ok_inv (cfg : Config)
    (p : PlasmaXRTSCalculatorParameters) (h : constructParameters cfg = .ok p) :
    p.input_data = none ∧
    checkAndSetDensitiesAndCharge cfg.electron_density cfg.ion_charge
      cfg.mass_density = .ok (p.electron_density, p.ion_charge, p.mass_density) := by
  unfold constructParameters at h
  obtain ⟨els, h1, h⟩ := bindOkInv h
  obtain ⟨ang, h2, h⟩ := bindOkInv h
  obtain ⟨te, h3, h⟩ := bindOkInv h
  obtain ⟨⟨ne, zf, rho⟩, h4, h⟩ := bindOkInv h
  obtain ⟨ti, h5, h⟩ := bindOkInv h
  obtain ⟨dt, h6, h⟩ := bindOkInv h
  obtain ⟨bg, h7, h⟩ := bindOkInv h
  obtain ⟨er, h8, h⟩ := bindOkInv h
  obtain ⟨sii, h9, h⟩ := bindOkInv h
  obtain ⟨see, h10, h⟩ := bindOkInv h
  obtain ⟨sbf, h11, h⟩ := bindOkInv h
  obtain ⟨ipl, h12, h⟩ := bindOkInv h
  obtain ⟨mix, h13, h⟩ := bindOkInv h
  obtain ⟨sbfn, h14, h⟩ := bindOkInv h
  injection h with h
  subst h
  exact ⟨rfl, h4⟩

theorem densities_ok_pos {ne0 zf0 rho0 : Option ℚ} {t : ℚ × ℚ × ℚ}
    (h : checkAndSetDensitiesAndCharge ne0 zf0 rho0 = .ok t)
    (h1 : 0 < ne0.getD 1) (h2 : 0 < zf0.getD 1) (h3 : 0 < rho0.getD 1) :
    0 < t.1 ∧ 0 < t.2.1 ∧ 0 < t.2.2 := by
  have hm : (0 : ℚ) < 1000000 := by norm_num
  rcases ne0 with _ | a <;> rcases zf0 with _ | b <;> rcases rho0 with _ | c <;>
    simp only [Option.getD_some, Option.getD_none] at h1 h2 h3
  · rw [solver_eval_underspecified _ _ _ (by simp [number_of_nones])] at h
    exact absurd h (by simp)
  · rw [solver_eval_underspecified _ _ _ (by simp [number_of_nones])] at h
    exact absurd h (by simp)
  · rw [solver_eval_underspecified _ _ _ (by simp [number_of_nones])] at h
    exact absurd h (by simp)
  · rw [solver_eval_ne_missing b c h2.ne' h3.ne'] at h
    injection h with h
    subst h
    exact ⟨mul_pos (mul_pos (mul_pos h3 h2) avogadro_pos) hm, h2, h3⟩
  · rw [solver_eval_underspecified _ _ _ (by simp [number_of_nones])] at h
    exact absurd h (by simp)
  · rw [solver_eval_zf_missing a c h1.ne' h3.ne'] at h
    injection h with h
    subst h
    exact ⟨h1, div_pos h1 (mul_pos (mul_pos h3 avogadro_pos) hm), h3⟩
  · rw [solver_eval_rho_missing a b h1.ne' h2.ne'] at h
    injection h with h
    subst h
    exact ⟨h1, h2, div_pos h1 (mul_pos (mul_pos h2 avogadro_pos) hm)⟩
  · rw [solver_eval_all_present a b c h2.ne' h3.ne'] at h
    split_ifs at h
    injection h with h
    subst h
    exact ⟨h1, h2, h3⟩

theorem cfgValidExample_ok : isOkE (constructParameters cfgValidExample) = true := by
  norm_num [constructParameters, cfgValidExample, checkAndSetElements,
    checkElementList, checkElementEntry, ALL_ELEMENTS, checkAndSetScatteringAngle,
    checkAndSetElectronTemperature, checkAndSetDensitiesAndCharge, number_of_nones,
    pyDiv, avogadro, checkAndSetIonTemperature, checkAndSetDebyeTemperature,
    checkAndSetBandGap, checkAndSetEnergyRange, checkAndSetModelSii,
    checkAndSetModelSee, checkAndSetModelSbf, checkAndSetModelIPL,
    checkAndSetModelMix, checkAndSetLFC, checkAndSetSbfNorm, bind_ok_eval, isOkE,
    StrOrFloat.inStringList, StrOrFloat.isFloat]

/-- C1: for every input to the Consistency Solver in which exactly one of
electron density, ion charge and mass density is absent and the other two are
supplied positive rationals, the solver returns all three quantities, the
missing one computed from the relation `ne = rho * Zf * N_A * 1e6`, the
returned triple satisfies that relation exactly, and re-checking the returned
triple at the 1e-4 relative tolerance of line 531 does not fail. -/
theorem density_triple_two_of_three_roundtrip (ne zf rho : ℚ)
    (hne : 0 < ne) (hzf : 0 < zf) (hrho : 0 < rho) :
    (checkAndSetDensitiesAndCharge none (some zf) (some rho) =
        .ok (rho * zf * avogadro * 1000000, zf, rho) ∧
      tripleRelation (rho * zf * avogadro * 1000000, zf, rho) ∧
      tripleWithinTolerance (rho * zf * avogadro * 1000000, zf, rho)) ∧
    (checkAndSetDensitiesAndCharge (some ne) none (some rho) =
        .ok (ne, ne / (rho * avogadro * 1000000), rho) ∧
      tripleRelation (ne, ne / (rho * avogadro * 1000000), rho) ∧
      tripleWithinTolerance (ne, ne / (rho * avogadro * 1000000), rho)) ∧
    (checkAndSetDensitiesAndCharge (some ne) (some zf) none =
        .ok (ne, zf, ne / (zf * avogadro * 1000000)) ∧
      tripleRelation (ne, zf, ne / (zf * avogadro * 1000000)) ∧
      tripleWithinTolerance (ne, zf, ne / (zf * avogadro * 1000000))) := by
  have hm : (0 : ℚ) < 1000000 := by norm_num
  have hx1 : rho * zf * avogadro * 1000000 ≠ 0 :=
    (mul_pos (mul_pos (mul_pos hrho hzf) avogadro_pos) hm).ne'
  have hrho' : rho ≠ 0 := hrho.ne'
  have hzf' : zf ≠ 0 := hzf.ne'
  have hA : avogadro ≠ 0 := avogadro_ne
  have key2 : rho * (ne / (rho * avogadro * 1000000)) * avogadro * 1000000 = ne := by
    field_simp
    ring
  have key3 : ne / (zf * avogadro * 1000000) * zf * avogadro * 1000000 = ne := by
    field_simp
    ring
  refine ⟨⟨solver_eval_ne_missing zf rho hzf.ne' hrho.ne', rfl, ?_⟩,
          ⟨solver_eval_zf_missing ne rho hne.ne' hrho.ne', ?_, ?_⟩,
          ⟨solver_eval_rho_missing ne zf hne.ne' hzf.ne', ?_, ?_⟩⟩
  · unfold tripleWithinTolerance
    simp only [div_self hx1]
    norm_num
  · unfold tripleRelation
    simp only
    rw [key2]
  · unfold tripleWithinTolerance
    simp only
    rw [key2, div_self hne.ne']
    norm_num
  · unfold tripleRelation
    simp only
    rw [key3]
  · unfold tripleWithinTolerance
    simp only
    rw [key3, div_self hne.ne']
    norm_num

/-- Application of `density_triple_two_of_three_roundtrip` at the concrete
positive inputs `ne = 5`, `Zf = 2`, `rho = 3`. -/
theorem density_triple_two_of_three_roundtrip_check :
    (0 : ℚ) < 5 ∧ (0 : ℚ) < 2 ∧ (0 : ℚ) < 3 ∧
    ((checkAndSetDensitiesAndCharge none (some 2) (some 3) =
        .ok (3 * 2 * avogadro * 1000000, 2, 3) ∧
      tripleRelation (3 * 2 * avogadro * 1000000, 2, 3) ∧
      tripleWithinTolerance (3 * 2 * avogadro * 1000000, 2, 3)) ∧
     (checkAndSetDensitiesAndCharge (some 5) none (some 3) =
        .ok (5, 5 / (3 * avogadro * 1000000), 3) ∧
      tripleRelation (5, 5 / (3 * avogadro * 1000000), 3) ∧
      tripleWithinTolerance (5, 5 / (3 * avogadro * 1000000), 3)) ∧
     (checkAndSetDensitiesAndCharge (some 5) (some 2) none =
        .ok (5, 2, 5 / (2 * avogadro * 1000000)) ∧
      tripleRelation (5, 2, 5 / (2 * avogadro * 1000000)) ∧
      tripleWithinTolerance (5, 2, 5 / (2 * avogadro * 1000000)))) :=
  ⟨by norm_num, by norm_num, by norm_num,
   density_triple_two_of_three_roundtrip 5 2 3 (by norm_num) (by norm_num)
     (by norm_num)⟩

/-- C2 (counterexample to the claim as stated): with exactly two of the three
values supplied — `electron_density = 1` and `mass_density = 0` — the solver
fails (with `ZeroDivisionError` from the derivation
`ion_charge = electron_density / (mass_density * Avogadro * 1e6)`), although
the claim allows failure only when fewer than two values are supplied or when
all three are supplied and inconsistent. -/
theorem density_solver_fails_with_two_supplied :
    checkAndSetDensitiesAndCharge (some 1) none (some 0) =
      .error .zeroDivisionError ∧
    number_of_nones (some 1) none (some 0) = 1 := by
  constructor
  · unfold checkAndSetDensitiesAndCharge
    norm_num [number_of_nones, pyDiv, bind_error_eval]
  · simp [number_of_nones]

/-- C2 (amended: all supplied values nonzero): the Consistency Solver fails
iff fewer than two of the three densities are supplied (then with
`UnderspecifiedSystem`) or all three are supplied with relative deviation from
the triple relation exceeding 1e-4 (then with
`InconsistentPhysicalParameters`); when all three are supplied within
tolerance it returns exactly the supplied values, with no silent overwrite. -/
theorem density_solver_failure_characterisation (ne0 zf0 rho0 : Option ℚ)
    (h1 : ne0.getD 1 ≠ 0) (h2 : zf0.getD 1 ≠ 0) (h3 : rho0.getD 1 ≠ 0) :
    (isOkE (checkAndSetDensitiesAndCharge ne0 zf0 rho0) = false ↔
        1 < number_of_nones ne0 zf0 rho0 ∨
        (ne0.isSome = true ∧ zf0.isSome = true ∧ rho0.isSome = true ∧
          1 / 10000 <
            |ne0.getD 0 / (rho0.getD 0 * zf0.getD 0 * avogadro * 1000000) - 1|)) ∧
    (1 < number_of_nones ne0 zf0 rho0 →
      checkAndSetDensitiesAndCharge ne0 zf0 rho0 = .error .underspecifiedSystem) ∧
    ((ne0.isSome = true ∧ zf0.isSome = true ∧ rho0.isSome = true ∧
        1 / 10000 <
          |ne0.getD 0 / (rho0.getD 0 * zf0.getD 0 * avogadro * 1000000) - 1|) →
      checkAndSetDensitiesAndCharge ne0 zf0 rho0 =
        .error .inconsistentPhysicalParameters) ∧
    ((ne0.isSome = true ∧ zf0.isSome = true ∧ rho0.isSome = true ∧
        |ne0.getD 0 / (rho0.getD 0 * zf0.getD 0 * avogadro * 1000000) - 1| ≤
          1 / 10000) →
      checkAndSetDensitiesAndCharge ne0 zf0 rho0 =
        .ok (ne0.getD 0, zf0.getD 0, rho0.getD 0)) := by
  rcases ne0 with _ | a <;> rcases zf0 with _ | b <;> rcases rho0 with _ | c <;>
    simp only [Option.getD_some, Option.getD_none] at h1 h2 h3
  · rw [solver_eval_underspecified _ _ _ (by simp [number_of_nones])]
    simp [isOkE, number_of_nones]
  · rw [solver_eval_underspecified _ _ _ (by simp [number_of_nones])]
    simp [isOkE, number_of_nones]
  · rw [solver_eval_underspecified _ _ _ (by simp [number_of_nones])]
    simp [isOkE, number_of_nones]
  · rw [solver_eval_ne_missing b c h2 h3]
    simp [isOkE, number_of_nones]
  · rw [solver_eval_underspecified _ _ _ (by simp [number_of_nones])]
    simp [isOkE, number_of_nones]
  · rw [solver_eval_zf_missing a c h1 h3]
    simp [isOkE, number_of_nones]
  · rw [solver_eval_rho_missing a b h1 h2]
    simp [isOkE, number_of_nones]
  · rw [solver_eval_all_present a b c h2 h3]
    split_ifs with htol
    · simp [isOkE, number_of_nones, htol, htol.not_le]
      linarith
    · simp [isOkE, number_of_nones, htol, le_of_not_lt htol]
      linarith [le_of_not_lt htol]

/-- Application of `density_solver_failure_characterisation` at the concrete
all-supplied input `(1, 1, 1)` (wildly inconsistent: `1 ≠ N_A * 1e6`). -/
theorem density_solver_failure_characterisation_check :
    (some (1 : ℚ)).getD 1 ≠ 0 ∧
    ((isOkE (checkAndSetDensitiesAndCharge (some 1) (some 1) (some 1)) = false ↔
        1 < number_of_nones (some 1) (some 1) (some 1) ∨
        ((some (1 : ℚ)).isSome = true ∧ (some (1 : ℚ)).isSome = true ∧
          (some (1 : ℚ)).isSome = true ∧
          1 / 10000 <
            |(some (1 : ℚ)).getD 0 /
                ((some (1 : ℚ)).getD 0 * (some (1 : ℚ)).getD 0 * avogadro *
                  1000000) - 1|)) ∧
    (1 < number_of_nones (some 1) (some 1) (some 1) →
      checkAndSetDensitiesAndCharge (some 1) (some 1) (some 1) =
        .error .underspecifiedSystem) ∧
    (((some (1 : ℚ)).isSome = true ∧ (some (1 : ℚ)).isSome = true ∧
        (some (1 : ℚ)).isSome = true ∧
        1 / 10000 <
          |(some (1 : ℚ)).getD 0 /
              ((some (1 : ℚ)).getD 0 * (some (1 : ℚ)).getD 0 * avogadro *
                1000000) - 1|) →
      checkAndSetDensitiesAndCharge (some 1) (some 1) (some 1) =
        .error .inconsistentPhysicalParameters) ∧
    (((some (1 : ℚ)).isSome = true ∧ (some (1 : ℚ)).isSome = true ∧
        (some (1 : ℚ)).isSome = true ∧
        |(some (1 : ℚ)).getD 0 /
            ((some (1 : ℚ)).getD 0 * (some (1 : ℚ)).getD 0 * avogadro *
              1000000) - 1| ≤ 1 / 10000) →
      checkAndSetDensitiesAndCharge (some 1) (some 1) (some 1) =
        .ok ((some (1 : ℚ)).getD 0, (some (1 : ℚ)).getD 0,
          (some (1 : ℚ)).getD 0))) :=
  ⟨by simp,
   density_solver_failure_characterisation (some 1) (some 1) (some 1) (by simp)
     (by simp) (by simp)⟩

/-- C3: for a missing `energy_range` and electron density `n` (non-negative,
as every successfully resolved density is), the derived window satisfies
`max = 10 * omega_p n`, `min = -(10 * omega_p n)` (so `max = -min`), and
`step = 0.1 * omega_p n`, where
`omega_p n = 4 * sqrt(n * a0cm^3 * pi) * Ry` with `a0cm` the Bohr radius
expressed in cm and `Ry` the Rydberg energy in eV. -/
theorem energy_range_derived_from_plasma_frequency (ne : ℚ) (hne : 0 ≤ ne) :
    checkAndSetEnergyRange none ne = .ok (energy_range_default ne) ∧
    List.lookup "max" (energy_range_default ne) =
      some (10 * plasma_frequency_eV ne) ∧
    List.lookup "min" (energy_range_default ne) =
      some (-(10 * plasma_frequency_eV ne)) ∧
    List.lookup "step" (energy_range_default ne) =
      some (0.1 * plasma_frequency_eV ne) ∧
    (10 : ℝ) * plasma_frequency_eV ne = -(-(10 * plasma_frequency_eV ne)) ∧
    plasma_frequency_eV ne =
      4 * Real.sqrt ((ne : ℝ) * (bohr_radius_m * 100) ^ 3 * Real.pi) *
        rydberg_energy_eV := by
  refine ⟨?_, ?_, ?_, ?_, by ring, rfl⟩
  · unfold checkAndSetEnergyRange
    rw [if_neg (not_lt.mpr hne)]
  · simp [energy_range_default, List.lookup]
  · simp [energy_range_default, List.lookup, neg_mul]
  · simp [energy_range_default, List.lookup]

/-- Application of `energy_range_derived_from_plasma_frequency` at the
concrete electron density `n = 1`. -/
theorem energy_range_derived_from_plasma_frequency_check :
    (0 : ℚ) ≤ 1 ∧
    (checkAndSetEnergyRange none 1 = .ok (energy_range_default 1) ∧
     List.lookup "max" (energy_range_default 1) =
       some (10 * plasma_frequency_eV 1) ∧
     List.lookup "min" (energy_range_default 1) =
       some (-(10 * plasma_frequency_eV 1)) ∧
     List.lookup "step" (energy_range_default 1) =
       some (0.1 * plasma_frequency_eV 1) ∧
     (10 : ℝ) * plasma_frequency_eV 1 = -(-(10 * plasma_frequency_eV 1)) ∧
     plasma_frequency_eV 1 =
       4 * Real.sqrt (((1 : ℚ) : ℝ) * (bohr_radius_m * 100) ^ 3 * Real.pi) *
         rydberg_energy_eV) :=
  ⟨by norm_num, energy_range_derived_from_plasma_frequency 1 (by norm_num)⟩

/-- C4 (counterexample to the claim as stated): the supplied record
`{'foo': 1}` contains none of the keys `min`, `max`, `step`, yet
`checkAndSetEnergyRange` accepts it — validation does not fail with
`InvalidConfiguration` on a record of any other shape. -/
theorem energy_range_keys_not_inspected :
    isOkE (checkAndSetEnergyRange (some (.dict [("foo", 1)])) 1) = true ∧
    List.lookup "min" [("foo", (1 : ℚ))] = none ∧
    List.lookup "max" [("foo", (1 : ℚ))] = none ∧
    List.lookup "step" [("foo", (1 : ℚ))] = none := by
  refine ⟨?_, by simp [List.lookup], by simp [List.lookup], by simp [List.lookup]⟩
  norm_num [checkAndSetEnergyRange, isOkE]

/-- C4 (amended): for a non-negative electron density, a caller-supplied
`energy_range` value passes validation iff it is a record (dict): any record
is accepted unchanged whatever its keys (missing or extra keys are not
detected), a non-record value fails with `TypeMismatch` (not
`InvalidConfiguration`), and an absent value is replaced by the derived
default window. -/
theorem energy_range_record_shape_only (ne : ℚ) (d : List (String × ℚ))
    (hne : 0 ≤ ne) :
    checkAndSetEnergyRange (some (.dict d)) ne =
      .ok (d.map fun kv => (kv.1, (kv.2 : ℝ))) ∧
    checkAndSetEnergyRange (some .nonDict) ne = .error .typeMismatch ∧
    checkAndSetEnergyRange none ne = .ok (energy_range_default ne) := by
  have hcond := not_lt.mpr hne
  refine ⟨?_, ?_, ?_⟩ <;>
    · unfold checkAndSetEnergyRange
      rw [if_neg hcond]

/-- Application of `energy_range_record_shape_only` at the concrete density
`1` and the concrete record `{'foo': 2}`. -/
theorem energy_range_record_shape_only_check :
    (0 : ℚ) ≤ 1 ∧
    (checkAndSetEnergyRange (some (.dict [("foo", 2)])) 1 =
       .ok ([("foo", (2 : ℚ))].map fun kv => (kv.1, (kv.2 : ℝ))) ∧
     checkAndSetEnergyRange (some .nonDict) 1 = .error .typeMismatch ∧
     checkAndSetEnergyRange none 1 = .ok (energy_range_default 1)) :=
  ⟨by norm_num, energy_range_record_shape_only 1 [("foo", 2)] (by norm_num)⟩

/-- C5: `checkAndSetModelSii` commits `SOCP` when the value is absent and
accepts the named models, but its acceptance condition is inverted with
respect to its documented contract: every float — including the docstring's
own example `1.5` and the non-negative value `1.0` — is rejected with the
`ValueError` of line 656, while every string, valid model name or not, is
accepted and returned unchanged. -/
theorem model_Sii_rejects_numbers_accepts_any_string :
    checkAndSetModelSii (some (.f (3 / 2))) = .error .invalidChoice ∧
    checkAndSetModelSii (some (.f 1)) = .error .invalidChoice ∧
    checkAndSetModelSii (some (.s "NOTAMODEL")) = .ok (.s "NOTAMODEL") ∧
    checkAndSetModelSii none = .ok (.s "SOCP") ∧
    checkAndSetModelSii (some (.s "DH")) = .ok (.s "DH") := by
  refine ⟨?_, ?_, ?_, ?_, ?_⟩ <;>
    simp [checkAndSetModelSii, StrOrFloat.inStringList, StrOrFloat.isFloat]

/-- C6: serializing any successfully constructed parameter set never reaches
the target-species block: the write aborts with `AttributeError` on the
never-assigned `self._input_data` (line 185) after the four constant header
lines, so the emitted trace contains zero `TARGET_` species lines instead of
one line per element. -/
theorem deck_species_block_never_written (cfg : Config)
    (hok : isOkE (constructParameters cfg) = true) :
    (okDeckTrace (constructParameters cfg)).2 =
      some (.attributeError "_input_data") ∧
    countTargetLines (okDeckTrace (constructParameters cfg)).1 = 0 := by
  cases hres : constructParameters cfg with
  | error e =>
      rw [hres] at hok
      simp [isOkE] at hok
  | ok p =>
      obtain ⟨hin, -⟩ := constructParameters_ok_inv cfg p hres
      simp [okDeckTrace, writeInputDeck, hin, countTargetLines, deckHeaderLines,
        isTargetLine]

/-- Application of `deck_species_block_never_written` to the concrete valid
configuration `cfgValidExample` (whose element list has one entry). -/
theorem deck_species_block_never_written_check :
    (okDeckTrace (constructParameters cfgValidExample)).2 =
      some (.attributeError "_input_data") ∧
    countTargetLines (okDeckTrace (constructParameters cfgValidExample)).1 = 0 :=
  deck_species_block_never_written cfgValidExample cfgValidExample_ok

/-- C7: deck serialization is not all-or-nothing: on a successfully
constructed parameter set the writer emits the four constant header lines into
the deck file and only then fails (with an `AttributeError`, not with a
propagated `MissingRequiredValue` or an I/O failure), leaving a partially
written deck. -/
theorem deck_write_fails_after_partial_emit (cfg : Config)
    (hok : isOkE (constructParameters cfg) = true) :
    (okDeckTrace (constructParameters cfg)).1 = deckHeaderLines ∧
    deckHeaderLines.length = 4 ∧
    (okDeckTrace (constructParameters cfg)).2 ≠ none := by
  cases hres : constructParameters cfg with
  | error e =>
      rw [hres] at hok
      simp [isOkE] at hok
  | ok p =>
      obtain ⟨hin, -⟩ := constructParameters_ok_inv cfg p hres
      simp [okDeckTrace, writeInputDeck, hin, deckHeaderLines]

/-- Application of `deck_write_fails_after_partial_emit` to the concrete valid
configuration `cfgValidExample`. -/
theorem deck_write_fails_after_partial_emit_check :
    (okDeckTrace (constructParameters cfgValidExample)).1 = deckHeaderLines ∧
    deckHeaderLines.length = 4 ∧
    (okDeckTrace (constructParameters cfgValidExample)).2 ≠ none :=
  deck_write_fails_after_partial_emit cfgValidExample cfgValidExample_ok

/-- C8 (counterexample to the claim as stated): writing `-5` — a value that
fails the field's single-field rule, a positive real — through the
`electron_density` accessor of a successfully constructed instance succeeds
and stores `-5` unvalidated (the other two legs keep their constructed values
`2` and `3`): contrary to the claim, the write does not re-run the field's
validator; on this old-style Python 2 class no validator runs at all. -/
theorem density_setter_accepts_invalid_value :
    isOkE ((constructParameters cfgValidExample).map
        (fun p => electron_density_setter p (-5))) = true ∧
    okElectronDensity ((constructParameters cfgValidExample).map
        (fun p => electron_density_setter p (-5))) = -5 ∧
    okIonCharge ((constructParameters cfgValidExample).map
        (fun p => electron_density_setter p (-5))) = 2 ∧
    okMassDensity ((constructParameters cfgValidExample).map
        (fun p => electron_density_setter p (-5))) = 3 := by
  norm_num [constructParameters, cfgValidExample, checkAndSetElements,
    checkElementList, checkElementEntry, ALL_ELEMENTS, checkAndSetScatteringAngle,
    checkAndSetElectronTemperature, checkAndSetDensitiesAndCharge, number_of_nones,
    pyDiv, avogadro, checkAndSetIonTemperature, checkAndSetDebyeTemperature,
    checkAndSetBandGap, checkAndSetEnergyRange, checkAndSetModelSii,
    checkAndSetModelSee, checkAndSetModelSbf, checkAndSetModelIPL,
    checkAndSetModelMix, checkAndSetLFC, checkAndSetSbfNorm, bind_ok_eval, isOkE,
    okElectronDensity, okIonCharge, okMassDensity, electron_density_setter,
    Except.map, StrOrFloat.inStringList, StrOrFloat.isFloat]

/-- C8 (amended): after construction, writing any value — valid or not —
through the `electron_density`, `ion_charge` or `mass_density` accessor always
succeeds without invoking any validator (the property setters of this
old-style Python 2 class never execute; the assignment writes the instance
dict directly), stores the value as written, and leaves the other two legs of
the density triple unchanged (the cross-field solver is not re-invoked). -/
theorem density_setters_bypass_validation
    (p : PlasmaXRTSCalculatorParameters) (v : ℚ) :
    (electron_density_setter p v).electron_density = v ∧
    (electron_density_setter p v).ion_charge = p.ion_charge ∧
    (electron_density_setter p v).mass_density = p.mass_density ∧
    (ion_charge_setter p v).ion_charge = v ∧
    (ion_charge_setter p v).electron_density = p.electron_density ∧
    (ion_charge_setter p v).mass_density = p.mass_density ∧
    (mass_density_setter p v).mass_density = v ∧
    (mass_density_setter p v).electron_density = p.electron_density ∧
    (mass_density_setter p v).ion_charge = p.ion_charge :=
  ⟨rfl, rfl, rfl, rfl, rfl, rfl, rfl, rfl, rfl⟩

/-- C9 (counterexample to the claim as stated): constructing from
`cfgC9neg` — ion charge `-2` and mass density `-1` supplied, electron density
derived — succeeds, yet the stored ion charge and mass density are negative. -/
theorem construct_accepts_negative_charge_and_density :
    isOkE (constructParameters cfgC9neg) = true ∧
    okIonCharge (constructParameters cfgC9neg) = -2 ∧
    okMassDensity (constructParameters cfgC9neg) = -1 := by
  norm_num [constructParameters, cfgC9neg, checkAndSetElements, checkElementList,
    checkElementEntry, ALL_ELEMENTS, checkAndSetScatteringAngle,
    checkAndSetElectronTemperature, checkAndSetDensitiesAndCharge, number_of_nones,
    pyDiv, avogadro, checkAndSetIonTemperature, checkAndSetDebyeTemperature,
    checkAndSetBandGap, checkAndSetEnergyRange, checkAndSetModelSii,
    checkAndSetModelSee, checkAndSetModelSbf, checkAndSetModelIPL,
    checkAndSetModelMix, checkAndSetLFC, checkAndSetSbfNorm, bind_ok_eval, isOkE,
    okIonCharge, okMassDensity, StrOrFloat.inStringList, StrOrFloat.isFloat]

/-- C9 (amended: supplied density-triple inputs strictly positive): every
successful construction whose supplied density-triple values are all strictly
positive stores a strictly positive electron density, ion charge and mass
density. -/
theorem construct_positive_triple_for_positive_inputs (cfg : Config)
    (hok : isOkE (constructParameters cfg) = true)
    (hne : 0 < cfg.electron_density.getD 1)
    (hzf : 0 < cfg.ion_charge.getD 1)
    (hrho : 0 < cfg.mass_density.getD 1) :
    0 < okElectronDensity (constructParameters cfg) ∧
    0 < okIonCharge (constructParameters cfg) ∧
    0 < okMassDensity (constructParameters cfg) := by
  cases hres : constructParameters cfg with
  | error e =>
      rw [hres] at hok
      simp [isOkE] at hok
  | ok p =>
      obtain ⟨-, hsolver⟩ := constructParameters_ok_inv cfg p hres
      have hpos := densities_ok_pos hsolver hne hzf hrho
      exact ⟨hpos.1, hpos.2.1, hpos.2.2⟩

/-- Application of `construct_positive_triple_for_positive_inputs` to the
concrete configuration `cfgValidExample` with all three densities supplied
positive. -/
theorem construct_positive_triple_for_positive_inputs_check :
    0 < cfgValidExample.electron_density.getD 1 ∧
    0 < cfgValidExample.ion_charge.getD 1 ∧
    0 < cfgValidExample.mass_density.getD 1 ∧
    (0 < okElectronDensity (constructParameters cfgValidExample) ∧
     0 < okIonCharge (constructParameters cfgValidExample) ∧
     0 < okMassDensity (constructParameters cfgValidExample)) :=
  ⟨by norm_num [cfgValidExample, avogadro], by norm_num [cfgValidExample],
   by norm_num [cfgValidExample],
   construct_positive_triple_for_positive_inputs cfgValidExample
     cfgValidExample_ok (by norm_num [cfgValidExample, avogadro])
     (by norm_num [cfgValidExample]) (by norm_num [cfgValidExample])⟩

/-- C10: the scattering-angle validator enforces `0 < angle ≤ 180`: an absent
value fails with the missing-value error, `0` exactly fails with the
out-of-range error, `180` exactly succeeds and is returned unchanged, and
`180.0001` fails with the out-of-range error. -/
theorem scattering_angle_boundary_behaviour :
    checkAndSetScatteringAngle none = .error .missingRequiredValue ∧
    checkAndSetScatteringAngle (some 0) = .error .outOfRangeValue ∧
    checkAndSetScatteringAngle (some 180) = .ok 180 ∧
    checkAndSetScatteringAngle (some (1800001 / 10000)) =
      .error .outOfRangeValue := by
  refine ⟨rfl, rfl, rfl, ?_⟩
  unfold checkAndSetScatteringAngle
  norm_num
